import Mathlib

/-!
Shallow embedding of the EstateHub real-estate server (`src/index.js`).

The server keeps five MongoDB collections (users, properties, wishlists,
reviews, offers); each collection is modelled as a `List` of documents and
each relevant HTTP handler as a pure function from the request data and the
current collection state to an HTTP status code together with the new
collection state.  MongoDB's `updateOne`, `updateMany`, `deleteOne` and
`findOne` are modelled by the generic list operations below: `updateOne`
touches the first document matching the filter and reports `matchedCount`
and `modifiedCount` (a document counts as modified only when the `$set`
actually changed it); `updateMany` rewrites every matching document;
`deleteOne` removes the first matching document and reports `deletedCount`.
Document ids (`_id` / `ObjectId`) are modelled as `Nat`.
-/

namespace EstateHub

/-- Counts reported by a MongoDB `updateOne` / `updateMany` call. -/
structure UpdateResult where
  matchedCount : Nat
  modifiedCount : Nat
deriving DecidableEq, Repr

/-- MongoDB `updateOne`: update the first element satisfying `p` with `f`,
reporting how many documents were matched and how many were actually
changed by the update. -/
def updateOneBy {α : Type} [DecidableEq α] (p : α → Bool) (f : α → α) :
    List α → UpdateResult × List α
  | [] => (⟨0, 0⟩, [])
  | x :: xs =>
    if p x then
      (⟨1, if f x = x then 0 else 1⟩, f x :: xs)
    else
      let r := updateOneBy p f xs
      (r.1, x :: r.2)

/-- MongoDB `updateMany`: rewrite every element satisfying `p` with `f`
(the server never inspects the counts of its one `updateMany` call, so only
the resulting list is modelled). -/
def updateManyBy {α : Type} (p : α → Bool) (f : α → α) (l : List α) : List α :=
  l.map fun x => if p x then f x else x

/-- MongoDB `deleteOne`: remove the first element satisfying `p`,
reporting the `deletedCount`. -/
def deleteOneBy {α : Type} (p : α → Bool) : List α → Nat × List α
  | [] => (0, [])
  | x :: xs =>
    if p x then
      (1, xs)
    else
      let r := deleteOneBy p xs
      (r.1, x :: r.2)

/-- A document of the `users` collection: Mongo `_id`, unique email and the
role string that drives authorization (`user` / `agent` / `admin`). -/
structure UserDoc where
  uid : Nat
  email : String
  role : String
deriving DecidableEq, Repr

/-- A document of the `offers` collection. -/
structure OfferDoc where
  oid : Nat
  propertyId : Nat
  buyerEmail : String
  agentEmail : String
  status : String
  transactionId : Option String
deriving DecidableEq, Repr

/-- A document of the `properties` collection: Mongo `_id` plus its
free-form JSON fields, modelled as an association list of field names to
values (the server stores client-submitted JSON without validation). -/
structure PropertyDoc where
  pid : Nat
  data : List (String × String)
deriving DecidableEq, Repr

/-- A document of the `wishlists` collection. -/
structure WishlistDoc where
  wid : Nat
  userEmail : String
  propertyId : Nat
deriving DecidableEq, Repr

/-- A document of the `reviews` collection. -/
structure ReviewDoc where
  rvid : Nat
  reviewerEmail : String
  propertyId : Nat
deriving DecidableEq, Repr

/-- Set one field of a free-form document, MongoDB `$set` style: overwrite
the field when present, append it otherwise. -/
def setField (data : List (String × String)) (k v : String) : List (String × String) :=
  if data.any fun kv => kv.1 == k then
    data.map fun kv => if kv.1 == k then (k, v) else kv
  else
    data ++ [(k, v)]

/-- MongoDB `$set` with a whole payload: fold `setField` over the payload. -/
def applySet (data payload : List (String × String)) : List (String × String) :=
  payload.foldl (fun d kv => setField d kv.1 kv.2) data

/-! ## Token service (`POST /jwt`, `verifyToken`, src/index.js:54-83)

`jwt.sign({email, role}, secret, {expiresIn: "30d"})` and `jwt.verify` are
modelled by a token record carrying the embedded claims and the absolute
expiry time in seconds (30 days = 2592000 s after issue); `jwt.verify`
rejects a token whose expiry is not strictly in the future. -/

/-- The claims `jwt.verify` hands to the handlers (`req.decoded`). -/
structure TokenClaims where
  email : String
  role : String
deriving DecidableEq, Repr

/-- A signed token as produced by `POST /jwt`. -/
structure SignedToken where
  email : String
  role : String
  exp : Nat
deriving DecidableEq, Repr

/-- `POST /jwt` (src/index.js:54-71): sign `{email, role}` with a 30-day
expiry (`expiresIn: "30d"`, i.e. 2592000 seconds from `now`). -/
def issueToken (email role : String) (now : Nat) : SignedToken :=
  ⟨email, role, now + 2592000⟩

/-- `jwt.verify` at time `now` (src/index.js:73-83): an expired or invalid
token yields 403 Forbidden, otherwise the embedded claims are returned. -/
def verifyTokenAt (t : SignedToken) (now : Nat) : Except Nat TokenClaims :=
  if now < t.exp then Except.ok ⟨t.email, t.role⟩ else Except.error 403

/-! ## Authorization guards (`verifyAdmin`, `verifyAgent`, src/index.js:85-105) -/

/-- `usersCollection.findOne({email})`. -/
def findUserByEmail (email : String) (users : List UserDoc) : Option UserDoc :=
  users.find? fun x => x.email == email

/-- `verifyAdmin` (src/index.js:85-94): re-read the user for the token's
email from the users collection and pass (`true`) only when the stored role
is `admin`; a missing user or any other stored role is 403 Forbidden
(`false`).  Only `decoded.email` is consulted, never `decoded.role`. -/
def verifyAdminGuard (decoded : TokenClaims) (users : List UserDoc) : Bool :=
  match findUserByEmail decoded.email users with
  | some u => u.role == "admin"
  | none => false

/-- `verifyAgent` (src/index.js:96-105): same as `verifyAdminGuard` with
required stored role `agent`. -/
def verifyAgentGuard (decoded : TokenClaims) (users : List UserDoc) : Bool :=
  match findUserByEmail decoded.email users with
  | some u => u.role == "agent"
  | none => false

/-! ## Users (`POST /users`, role endpoints, `DELETE /users/:id`) -/

/-- `POST /users` (src/index.js:136-155): reject with 400 when a user with
the same email already exists, otherwise insert the new user. -/
def postUsers (u : UserDoc) (users : List UserDoc) : Nat × List UserDoc :=
  match users.find? (fun x => x.email == u.email) with
  | some _ => (400, users)
  | none => (200, users ++ [u])

/-- The `updateOne` underlying `PATCH /users/admin/:id`. -/
def usersMakeAdminUpdate (id : Nat) (users : List UserDoc) : UpdateResult × List UserDoc :=
  updateOneBy (fun u => u.uid == id) (fun u => { u with role := "admin" }) users

/-- `PATCH /users/admin/:id` (src/index.js:348-371): `$set {role: "admin"}`
on the user with the given id; 404 when `matchedCount` is zero, 200
otherwise. -/
def makeAdmin (id : Nat) (users : List UserDoc) : Nat × List UserDoc :=
  let r := usersMakeAdminUpdate id users
  if r.1.matchedCount = 0 then (404, r.2) else (200, r.2)

/-- `DELETE /users/:id` (src/index.js:426-454): `findOne` first (404 when
missing), then best-effort external-auth deletion (swallowed, not
modelled), then `deleteOne`; always 200 once the user was found. -/
def deleteUser (id : Nat) (users : List UserDoc) : Nat × List UserDoc :=
  match users.find? (fun u => u.uid == id) with
  | none => (404, users)
  | some _ =>
    let r := deleteOneBy (fun u => u.uid == id) users
    (200, r.2)

/-! ## Properties (`PUT /properties/:id`, `DELETE /properties/:id`) -/

/-- The `updateOne` underlying `PUT /properties/:id`. -/
def propertiesPutUpdate (id : Nat) (payload : List (String × String))
    (props : List PropertyDoc) : UpdateResult × List PropertyDoc :=
  updateOneBy (fun p => p.pid == id)
    (fun p => { p with data := applySet p.data payload }) props

/-- `PUT /properties/:id` (src/index.js:200-221): `$set` the request body on
the property with the given id; 404 when `modifiedCount` is zero (also for
an existing id whose update was a no-op), 200 otherwise. -/
def putProperty (id : Nat) (payload : List (String × String))
    (props : List PropertyDoc) : Nat × List PropertyDoc :=
  let r := propertiesPutUpdate id payload props
  if r.1.modifiedCount = 0 then (404, r.2) else (200, r.2)

/-- `DELETE /properties/:id` (src/index.js:224-240): `deleteOne`; 404 when
`deletedCount` is zero, 200 otherwise. -/
def deleteProperty (id : Nat) (props : List PropertyDoc) : Nat × List PropertyDoc :=
  let r := deleteOneBy (fun p => p.pid == id) props
  if r.1 = 0 then (404, r.2) else (200, r.2)

/-! ## Wishlist and reviews (`DELETE /wishlist/:id`, `DELETE /reviews/:id`) -/

/-- `DELETE /wishlist/:id` (src/index.js:495-513): `deleteOne`; 200 when
`deletedCount > 0`, else 404. -/
def deleteWishlist (id : Nat) (wl : List WishlistDoc) : Nat × List WishlistDoc :=
  let r := deleteOneBy (fun w => w.wid == id) wl
  if 0 < r.1 then (200, r.2) else (404, r.2)

/-- `DELETE /reviews/:id` (src/index.js:736-746): `deleteOne`; 200 when
`deletedCount > 0`, else 404. -/
def deleteReview (id : Nat) (rvs : List ReviewDoc) : Nat × List ReviewDoc :=
  let r := deleteOneBy (fun v => v.rvid == id) rvs
  if 0 < r.1 then (200, r.2) else (404, r.2)

/-! ## Offer lifecycle (src/index.js:606-679, 769-800) -/

/-- The `updateOne` setting an offer's status, shared by the accept and
reject handlers. -/
def offersStatusUpdate (id : Nat) (s : String) (offers : List OfferDoc) :
    UpdateResult × List OfferDoc :=
  updateOneBy (fun o => o.oid == id) (fun o => { o with status := s }) offers

/-- `PATCH /offers/accept/:id` (src/index.js:606-650).  The handler first
does `findOne` on the id; when no offer exists the subsequent
`acceptedOffer.propertyId` access throws and the catch block answers 500
with the collection untouched.  Otherwise it sets the target's status to
`accepted` (`updateOne`), then rejects every other offer on the same
property (`updateMany`), and only afterwards checks the target update's
`modifiedCount`: zero yields 404, else 200.  Either way both writes have
run. -/
def acceptOffer (id : Nat) (offers : List OfferDoc) : Nat × List OfferDoc :=
  match offers.find? (fun o => o.oid == id) with
  | none => (500, offers)
  | some acceptedOffer =>
    let propertyId := acceptedOffer.propertyId
    let step := offersStatusUpdate id "accepted" offers
    let offers2 := updateManyBy
      (fun o => o.propertyId == propertyId && !(o.oid == id))
      (fun o => { o with status := "rejected" }) step.2
    if step.1.modifiedCount = 0 then (404, offers2) else (200, offers2)

/-- `PATCH /offers/reject/:id` (src/index.js:653-679): unconditionally
`$set {status: "rejected"}` on the offer with the given id (no check of the
prior status); 404 when `modifiedCount` is zero, 200 otherwise. -/
def rejectOffer (id : Nat) (offers : List OfferDoc) : Nat × List OfferDoc :=
  let r := offersStatusUpdate id "rejected" offers
  if r.1.modifiedCount = 0 then (404, r.2) else (200, r.2)

/-- The `updateOne` underlying `PATCH /offers/:id`. -/
def offersBoughtUpdate (id : Nat) (txId : Option String) (offers : List OfferDoc) :
    UpdateResult × List OfferDoc :=
  updateOneBy (fun o => o.oid == id)
    (fun o => { o with status := "bought", transactionId := txId }) offers

/-- `PATCH /offers/:id` (src/index.js:769-800): `$set {status: "bought",
transactionId}`; 404 when `modifiedCount` is zero, 200 otherwise. -/
def patchOfferBought (id : Nat) (txId : Option String) (offers : List OfferDoc) :
    Nat × List OfferDoc :=
  let r := offersBoughtUpdate id txId offers
  if r.1.modifiedCount = 0 then (404, r.2) else (200, r.2)

/-! ## Payment (`POST /create-payment-intent`, src/index.js:749-767) -/

/-- JavaScript `parseInt` applied to a (decimal-printed) number: truncation
toward zero, i.e. floor for non-negative and ceiling for negative values. -/
def jsParseIntRat (q : ℚ) : ℤ :=
  if 0 ≤ q then ⌊q⌋ else ⌈q⌉

/-- The charge request sent to the payment processor. -/
structure PaymentIntent where
  amount : ℤ
  currency : String
deriving DecidableEq, Repr

/-- `POST /create-payment-intent` (src/index.js:749-767): the charge amount
is `parseInt(price * 100)` and the currency is the fixed string "usd". -/
def createPaymentIntent (price : ℚ) : PaymentIntent :=
  ⟨jsParseIntRat (price * 100), "usd"⟩

/-! ## List-level helper lemmas -/

theorem map_ite_eq_self {α : Type} (p : α → Bool) (f : α → α) :
    ∀ l : List α, l.countP p = 0 → (l.map fun x => if p x then f x else x) = l := by
  intro l
  induction l with
  | nil => intro _; rfl
  | cons x xs ih =>
    intro h
    rw [List.countP_cons] at h
    by_cases hx : p x = true
    · rw [if_pos hx] at h
      exact absurd h (Nat.succ_ne_zero _)
    · rw [if_neg hx, Nat.add_zero] at h
      simp only [List.map_cons, if_neg hx, ih h]

theorem countP_beq_le_one {α β : Type} [BEq β] [LawfulBEq β] (f : α → β) (b : β) :
    ∀ l : List α, (l.map f).Nodup → l.countP (fun x => f x == b) ≤ 1 := by
  intro l
  induction l with
  | nil => intro _; simp
  | cons x xs ih =>
    intro h
    rw [List.map_cons, List.nodup_cons] at h
    rw [List.countP_cons]
    by_cases hx : (f x == b) = true
    · rw [if_pos hx]
      have hb : f x = b := eq_of_beq hx
      have hz : xs.countP (fun x => f x == b) = 0 := by
        rw [List.countP_eq_zero]
        intro a ha hab
        have hmem : f a ∈ List.map f xs := List.mem_map_of_mem f ha
        rw [eq_of_beq hab, ← hb] at hmem
        exact h.1 hmem
      omega
    · rw [if_neg hx]
      have := ih h.2
      omega

theorem updateOneBy_snd {α : Type} [DecidableEq α] (p : α → Bool) (f : α → α) :
    ∀ l : List α, l.countP p ≤ 1 →
      (updateOneBy p f l).2 = l.map fun x => if p x then f x else x := by
  intro l
  induction l with
  | nil => intro _; rfl
  | cons x xs ih =>
    intro h
    rw [List.countP_cons] at h
    by_cases hx : p x = true
    · rw [if_pos hx] at h
      have hz : xs.countP p = 0 := by omega
      simp only [updateOneBy, if_pos hx, List.map_cons, if_pos hx,
        map_ite_eq_self p f xs hz]
    · rw [if_neg hx, Nat.add_zero] at h
      simp only [updateOneBy, if_neg hx, List.map_cons, ih h]

theorem updateOneBy_modified_zero {α : Type} [DecidableEq α] (p : α → Bool) (f : α → α) :
    ∀ l : List α, (∀ x ∈ l, p x = true → f x = x) →
      (updateOneBy p f l).1.modifiedCount = 0 := by
  intro l
  induction l with
  | nil => intro _; rfl
  | cons x xs ih =>
    intro h
    by_cases hx : p x = true
    · simp only [updateOneBy, if_pos hx]
      show (if f x = x then 0 else 1) = 0
      rw [if_pos (h x (List.mem_cons_self x xs) hx)]
    · simp only [updateOneBy, if_neg hx]
      exact ih fun a ha => h a (List.mem_cons_of_mem x ha)

theorem find?_cons_eq {α : Type} (p : α → Bool) (x : α) (xs : List α) :
    List.find? p (x :: xs) = if p x then some x else List.find? p xs := by
  cases hpx : p x
  · rw [if_neg (by simp)]
    exact List.find?_cons_of_neg xs (by simp [hpx])
  · rw [if_pos rfl]
    exact List.find?_cons_of_pos xs hpx

theorem find?_beq_of_mem_nodup {α β : Type} [BEq β] [LawfulBEq β] (f : α → β) :
    ∀ l : List α, (l.map f).Nodup → ∀ o ∈ l, l.find? (fun x => f x == f o) = some o := by
  intro l
  induction l with
  | nil => intro _ o ho; cases ho
  | cons x xs ih =>
    intro h o ho
    rw [List.map_cons, List.nodup_cons] at h
    rw [find?_cons_eq]
    by_cases hx : (f x == f o) = true
    · rw [if_pos hx]
      rcases List.mem_cons.mp ho with rfl | hmem
      · rfl
      · exfalso
        apply h.1
        rw [eq_of_beq hx]
        exact List.mem_map_of_mem f hmem
    · rw [if_neg hx]
      rcases List.mem_cons.mp ho with rfl | hmem
      · simp at hx
      · exact ih h.2 o hmem

theorem deleteOneBy_of_none {α : Type} (p : α → Bool) :
    ∀ l : List α, (∀ x ∈ l, ¬ p x = true) → deleteOneBy p l = (0, l) := by
  intro l
  induction l with
  | nil => intro _; rfl
  | cons x xs ih =>
    intro h
    simp only [deleteOneBy, if_neg (h x (List.mem_cons_self x xs))]
    rw [ih fun a ha => h a (List.mem_cons_of_mem x ha)]

theorem offer_set_status_self (o : OfferDoc) (s : String) (h : o.status = s) :
    ({ o with status := s } : OfferDoc) = o := by
  cases o
  simp_all

/-! ## Facts about the offer-accept cascade, shared by several theorems -/

/-- State reached by `PATCH /offers/accept/:id` on an offer `o` present in
a store with distinct ids: the target becomes `accepted`, every other offer
on the same property becomes `rejected`, all other offers are unchanged. -/
theorem acceptOffer_snd_eq (offers : List OfferDoc) (o : OfferDoc)
    (hnd : (offers.map OfferDoc.oid).Nodup) (ho : o ∈ offers) :
    (acceptOffer o.oid offers).2 = offers.map fun x =>
      if x.oid = o.oid then { x with status := "accepted" }
      else if x.propertyId = o.propertyId then { x with status := "rejected" }
      else x := by
  have hfind := find?_beq_of_mem_nodup OfferDoc.oid offers hnd o ho
  have hcount := countP_beq_le_one OfferDoc.oid o.oid offers hnd
  have hupd := updateOneBy_snd (fun x => x.oid == o.oid)
      (fun x => { x with status := "accepted" }) offers hcount
  simp only [acceptOffer, hfind, offersStatusUpdate, updateManyBy, hupd,
    apply_ite Prod.snd, ite_self, List.map_map]
  apply List.map_congr_left
  intro x hx
  by_cases h1 : x.oid = o.oid
  · by_cases h2 : x.propertyId = o.propertyId <;>
      simp [Function.comp, h1, h2]
  · by_cases h2 : x.propertyId = o.propertyId <;>
      simp [Function.comp, h1, h2]

/-- Response code of `PATCH /offers/accept/:id` when the target offer is
already `accepted`: the target `updateOne` modifies nothing, so the handler
answers 404. -/
theorem acceptOffer_fst_of_accepted (offers : List OfferDoc) (o : OfferDoc)
    (hnd : (offers.map OfferDoc.oid).Nodup) (ho : o ∈ offers)
    (hacc : o.status = "accepted") :
    (acceptOffer o.oid offers).1 = 404 := by
  have hfind := find?_beq_of_mem_nodup OfferDoc.oid offers hnd o ho
  have hmod : (offersStatusUpdate o.oid "accepted" offers).1.modifiedCount = 0 := by
    rw [offersStatusUpdate]
    apply updateOneBy_modified_zero
    intro x hx hpx
    have hxo : x = o := List.inj_on_of_nodup_map hnd hx ho (eq_of_beq hpx)
    subst hxo
    exact offer_set_status_self x "accepted" hacc
  simp [acceptOffer, hfind, hmod]

/-! ## Claim theorems -/

/-- C1: for every offer `o` present in the offers store (ids being unique,
as Mongo `_id`s are), `accept(o.id)` sets `o`'s status to `accepted`, sets
the status of every other offer with the same `propertyId` to `rejected`,
and leaves every offer with a different `propertyId` unchanged. -/
theorem C1_accept_offer_cascade (offers : List OfferDoc) (o : OfferDoc)
    (hnd : (offers.map OfferDoc.oid).Nodup) (ho : o ∈ offers) :
    (acceptOffer o.oid offers).2 = offers.map fun x =>
      if x.oid = o.oid then { x with status := "accepted" }
      else if x.propertyId = o.propertyId then { x with status := "rejected" }
      else x :=
  acceptOffer_snd_eq offers o hnd ho

/-- Witness for C1 at a concrete store: accepting offer 1 on property 10
accepts it, rejects the sibling offer 2 on property 10, and leaves offer 3
on property 11 unchanged. -/
theorem C1_accept_offer_cascade_witness :
    (acceptOffer 1 [⟨1, 10, "b1", "ag", "pending", none⟩,
        ⟨2, 10, "b2", "ag", "pending", none⟩,
        ⟨3, 11, "b3", "ag", "pending", none⟩]).2 =
      [⟨1, 10, "b1", "ag", "accepted", none⟩,
        ⟨2, 10, "b2", "ag", "rejected", none⟩,
        ⟨3, 11, "b3", "ag", "pending", none⟩] := by
  have h := C1_accept_offer_cascade
    [⟨1, 10, "b1", "ag", "pending", none⟩,
      ⟨2, 10, "b2", "ag", "pending", none⟩,
      ⟨3, 11, "b3", "ag", "pending", none⟩]
    ⟨1, 10, "b1", "ag", "pending", none⟩ (by decide) (by decide)
  rw [h]
  rfl

/-- C2: calling `accept(id)` on an existing offer whose status is already
`accepted` (so the target `updateOne` modifies zero documents) answers 404
NotFound, yet the sibling-rejection cascade has already executed: every
other offer on the same property is nevertheless set to `rejected` in the
final store, and the final store is exactly the cascaded one — so the
error response does not imply the state is unchanged. -/
theorem C2_accept_already_accepted_404_but_cascaded (offers : List OfferDoc)
    (o : OfferDoc) (hnd : (offers.map OfferDoc.oid).Nodup) (ho : o ∈ offers)
    (hacc : o.status = "accepted") :
    (acceptOffer o.oid offers).1 = 404 ∧
    (∀ x ∈ offers, x.oid ≠ o.oid → x.propertyId = o.propertyId →
      { x with status := "rejected" } ∈ (acceptOffer o.oid offers).2) ∧
    (acceptOffer o.oid offers).2 = offers.map fun x =>
      if x.oid = o.oid then { x with status := "accepted" }
      else if x.propertyId = o.propertyId then { x with status := "rejected" }
      else x := by
  have hsnd := acceptOffer_snd_eq offers o hnd ho
  refine ⟨acceptOffer_fst_of_accepted offers o hnd ho hacc, ?_, hsnd⟩
  intro x hx hne hpid
  rw [hsnd]
  have hmem := List.mem_map_of_mem (fun x =>
      if x.oid = o.oid then { x with status := "accepted" }
      else if x.propertyId = o.propertyId then { x with status := "rejected" }
      else x) hx
  simpa [hne, hpid] using hmem

/-- Witness for C2: offer 1 is already `accepted`; accepting it again
answers 404, yet the pending sibling offer 2 is rejected in the final
store, which therefore differs from the store before the call. -/
theorem C2_accept_already_accepted_witness :
    acceptOffer 1 [⟨1, 10, "b1", "ag", "accepted", none⟩,
        ⟨2, 10, "b2", "ag", "pending", none⟩] =
      (404, [⟨1, 10, "b1", "ag", "accepted", none⟩,
        ⟨2, 10, "b2", "ag", "rejected", none⟩]) ∧
    (⟨2, 10, "b2", "ag", "rejected", none⟩ : OfferDoc) ∈
      (acceptOffer 1 [⟨1, 10, "b1", "ag", "accepted", none⟩,
        ⟨2, 10, "b2", "ag", "pending", none⟩]).2 ∧
    (acceptOffer 1 [⟨1, 10, "b1", "ag", "accepted", none⟩,
        ⟨2, 10, "b2", "ag", "pending", none⟩]).2 ≠
      [⟨1, 10, "b1", "ag", "accepted", none⟩,
        ⟨2, 10, "b2", "ag", "pending", none⟩] := by
  have h := C2_accept_already_accepted_404_but_cascaded
    [⟨1, 10, "b1", "ag", "accepted", none⟩, ⟨2, 10, "b2", "ag", "pending", none⟩]
    ⟨1, 10, "b1", "ag", "accepted", none⟩ (by decide) (by decide) rfl
  refine ⟨?_, ?_, ?_⟩
  · rw [Prod.ext_iff]
    refine ⟨h.1, ?_⟩
    rw [h.2.2]
    rfl
  · exact h.2.1 ⟨2, 10, "b2", "ag", "pending", none⟩ (by decide) (by decide) rfl
  · rw [h.2.2]
    decide

/-- C6: for every offer `o` present in the offers store, whatever its
current status (pending, accepted, rejected or bought — no hypothesis on
`o.status`), after `reject(o.id)` the offer's status is `rejected` and all
other offers are unchanged; the filter of the underlying update names only
the id, never the prior status. -/
theorem C6_reject_offer_unconditional (offers : List OfferDoc) (o : OfferDoc)
    (hnd : (offers.map OfferDoc.oid).Nodup) (_ho : o ∈ offers) :
    (rejectOffer o.oid offers).2 = offers.map fun x =>
      if x.oid = o.oid then { x with status := "rejected" } else x := by
  have hcount := countP_beq_le_one OfferDoc.oid o.oid offers hnd
  have hupd := updateOneBy_snd (fun x => x.oid == o.oid)
      (fun x => { x with status := "rejected" }) offers hcount
  simp only [rejectOffer, offersStatusUpdate, apply_ite Prod.snd, ite_self, hupd]
  apply List.map_congr_left
  intro x hx
  by_cases h1 : x.oid = o.oid <;> simp [h1]

/-- Witness for C6: rejecting offer 1, currently in status `bought`, still
ends with status `rejected`. -/
theorem C6_reject_offer_unconditional_witness :
    (rejectOffer 1 [⟨1, 10, "b1", "ag", "bought", some "tx1"⟩,
        ⟨2, 11, "b2", "ag", "pending", none⟩]).2 =
      [⟨1, 10, "b1", "ag", "rejected", some "tx1"⟩,
        ⟨2, 11, "b2", "ag", "pending", none⟩] := by
  have h := C6_reject_offer_unconditional
    [⟨1, 10, "b1", "ag", "bought", some "tx1"⟩, ⟨2, 11, "b2", "ag", "pending", none⟩]
    ⟨1, 10, "b1", "ag", "bought", some "tx1"⟩ (by decide) (by decide)
  rw [h]
  rfl

/-- C10: for every id matching no offer in the store, `accept(id)` answers
500 InternalError (the handler reads the missing offer, gets `null`, and
the `propertyId` access throws before the 404 check is ever reached) and
the offers store is left unchanged. -/
theorem C10_accept_missing_offer_500 (id : Nat) (offers : List OfferDoc)
    (h : ∀ x ∈ offers, x.oid ≠ id) :
    acceptOffer id offers = (500, offers) := by
  have hfind : offers.find? (fun x => x.oid == id) = none := by
    rw [List.find?_eq_none]
    intro x hx
    simp only [beq_iff_eq]
    exact h x hx
  simp [acceptOffer, hfind]

/-- Witness for C10: no offer has id 7, so accepting id 7 answers 500 with
the store untouched. -/
theorem C10_accept_missing_offer_500_witness :
    acceptOffer 7 [⟨1, 10, "b1", "ag", "pending", none⟩] =
      (500, [⟨1, 10, "b1", "ag", "pending", none⟩]) :=
  C10_accept_missing_offer_500 7 [⟨1, 10, "b1", "ag", "pending", none⟩] (by decide)

/-- C3 counterexample: the users store holds user 1 whose role is already
`admin`, so `PATCH /users/admin/1` is a no-op — the underlying update has
`modifiedCount` zero — yet the handler answers 200 Success, not 404,
because it checks `matchedCount`, refuting the claim that every update
endpoint reports a zero modify count as NotFound. -/
theorem C3_no_op_update_counterexample :
    (usersMakeAdminUpdate 1 [⟨1, "a", "admin"⟩]).1.modifiedCount = 0 ∧
    makeAdmin 1 [⟨1, "a", "admin"⟩] = (200, [⟨1, "a", "admin"⟩]) := by
  constructor
  · rfl
  · rfl

/-- C3 amended: `PUT /properties/:id` and `PATCH /offers/:id` answer 404
exactly when the mutation's `modifiedCount` is zero (so a no-op update on
an existing id is reported as NotFound there), but `PATCH /users/admin/:id`
answers 404 exactly when `matchedCount` is zero, so a no-op role update on
an existing user is reported as Success. -/
theorem C3_update_not_found_semantics (id : Nat) (payload : List (String × String))
    (props : List PropertyDoc) (txId : Option String) (offers : List OfferDoc)
    (users : List UserDoc) :
    ((putProperty id payload props).1 = 404 ↔
      (propertiesPutUpdate id payload props).1.modifiedCount = 0) ∧
    ((patchOfferBought id txId offers).1 = 404 ↔
      (offersBoughtUpdate id txId offers).1.modifiedCount = 0) ∧
    ((makeAdmin id users).1 = 404 ↔
      (usersMakeAdminUpdate id users).1.matchedCount = 0) := by
  refine ⟨?_, ?_, ?_⟩
  · by_cases h : (propertiesPutUpdate id payload props).1.modifiedCount = 0 <;>
      simp [putProperty, h]
  · by_cases h : (offersBoughtUpdate id txId offers).1.modifiedCount = 0 <;>
      simp [patchOfferBought, h]
  · by_cases h : (usersMakeAdminUpdate id users).1.matchedCount = 0 <;>
      simp [makeAdmin, h]

/-- C4: a token issued for identity `e` and role `r` at time `t0` verifies
to exactly the claims `(e, r)` at any time before the 30-day expiry
(2592000 seconds) and yields 403 Forbidden at any time from the expiry on. -/
theorem C4_token_roundtrip (e r : String) (t0 t : Nat) :
    (t < t0 + 2592000 →
      verifyTokenAt (issueToken e r t0) t = Except.ok ⟨e, r⟩) ∧
    (t0 + 2592000 ≤ t →
      verifyTokenAt (issueToken e r t0) t = Except.error 403) := by
  constructor
  · intro h
    simp [verifyTokenAt, issueToken, h]
  · intro h
    simp [verifyTokenAt, issueToken, Nat.not_lt.mpr h]

/-- Witness for C4: a token issued at time 0 verifies to its claims at
time 10 and is rejected with 403 at time 2592000. -/
theorem C4_token_roundtrip_witness :
    verifyTokenAt (issueToken "e@x" "agent" 0) 10 = Except.ok ⟨"e@x", "agent"⟩ ∧
    verifyTokenAt (issueToken "e@x" "agent" 0) 2592000 = Except.error 403 :=
  ⟨(C4_token_roundtrip "e@x" "agent" 0 10).1 (by decide),
   (C4_token_roundtrip "e@x" "agent" 0 2592000).2 (by decide)⟩

/-- C5: creating a user whose email already exists in the users store
answers 400 BadRequest and leaves the store unchanged — no duplicate is
inserted. -/
theorem C5_duplicate_user_rejected (u : UserDoc) (users : List UserDoc)
    (h : ∃ x ∈ users, x.email = u.email) :
    postUsers u users = (400, users) := by
  obtain ⟨x, hx, he⟩ := h
  cases hfind : users.find? (fun y => y.email == u.email) with
  | none =>
    rw [List.find?_eq_none] at hfind
    exact absurd (by simp [he]) (hfind x hx)
  | some w => simp [postUsers, hfind]

/-- Witness for C5: the store already holds a user with email `a@x`, so
creating another user with that email answers 400 and keeps the store. -/
theorem C5_duplicate_user_rejected_witness :
    postUsers ⟨2, "a@x", "user"⟩ [⟨1, "a@x", "admin"⟩] =
      (400, [⟨1, "a@x", "admin"⟩]) :=
  C5_duplicate_user_rejected ⟨2, "a@x", "user"⟩ [⟨1, "a@x", "admin"⟩]
    ⟨⟨1, "a@x", "admin"⟩, by decide, rfl⟩

/-- C7: for each delete endpoint (properties, users, wishlist, reviews), an
id matching no stored document yields 404 NotFound, never Success. -/
theorem C7_delete_missing_not_found (id : Nat) (props : List PropertyDoc)
    (users : List UserDoc) (wl : List WishlistDoc) (rvs : List ReviewDoc)
    (h1 : ∀ x ∈ props, x.pid ≠ id) (h2 : ∀ x ∈ users, x.uid ≠ id)
    (h3 : ∀ x ∈ wl, x.wid ≠ id) (h4 : ∀ x ∈ rvs, x.rvid ≠ id) :
    (deleteProperty id props).1 = 404 ∧ (deleteUser id users).1 = 404 ∧
    (deleteWishlist id wl).1 = 404 ∧ (deleteReview id rvs).1 = 404 := by
  refine ⟨?_, ?_, ?_, ?_⟩
  · have hd := deleteOneBy_of_none (fun p => p.pid == id) props
      (by intro x hx; simp only [beq_iff_eq]; exact h1 x hx)
    simp [deleteProperty, hd]
  · have hf : users.find? (fun u => u.uid == id) = none := by
      rw [List.find?_eq_none]
      intro x hx
      simp only [beq_iff_eq]
      exact h2 x hx
    simp [deleteUser, hf]
  · have hd := deleteOneBy_of_none (fun w => w.wid == id) wl
      (by intro x hx; simp only [beq_iff_eq]; exact h3 x hx)
    simp [deleteWishlist, hd]
  · have hd := deleteOneBy_of_none (fun v => v.rvid == id) rvs
      (by intro x hx; simp only [beq_iff_eq]; exact h4 x hx)
    simp [deleteReview, hd]

/-- Witness for C7: id 99 matches nothing in any of the four stores, so
all four delete endpoints answer 404. -/
theorem C7_delete_missing_not_found_witness :
    (deleteProperty 99 [⟨1, [("status", "verified")]⟩]).1 = 404 ∧
    (deleteUser 99 [⟨1, "a@x", "user"⟩]).1 = 404 ∧
    (deleteWishlist 99 [⟨1, "a@x", 10⟩]).1 = 404 ∧
    (deleteReview 99 [⟨1, "a@x", 10⟩]).1 = 404 :=
  C7_delete_missing_not_found 99 [⟨1, [("status", "verified")]⟩]
    [⟨1, "a@x", "user"⟩] [⟨1, "a@x", 10⟩] [⟨1, "a@x", 10⟩]
    (by decide) (by decide) (by decide) (by decide)

/-- C8: the admin and agent guards depend only on the role currently
stored for the claimed email, never on the token's role claim: two
verified claims with the same email but different token roles get the
identical decision on the same store, and each guard denies (Forbidden,
modelled as `false`) whenever the stored role differs from the required
one (including a missing user). -/
theorem C8_guard_uses_stored_role (users : List UserDoc) (c1 c2 : TokenClaims)
    (hemail : c1.email = c2.email) :
    (verifyAdminGuard c1 users = verifyAdminGuard c2 users ∧
      verifyAgentGuard c1 users = verifyAgentGuard c2 users) ∧
    ((findUserByEmail c1.email users).map UserDoc.role ≠ some "admin" →
      verifyAdminGuard c1 users = false) ∧
    ((findUserByEmail c1.email users).map UserDoc.role ≠ some "agent" →
      verifyAgentGuard c1 users = false) := by
  refine ⟨⟨?_, ?_⟩, ?_, ?_⟩
  · unfold verifyAdminGuard
    rw [hemail]
  · unfold verifyAgentGuard
    rw [hemail]
  · intro hne
    unfold verifyAdminGuard
    cases hf : findUserByEmail c1.email users with
    | none => rfl
    | some u =>
      rw [hf] at hne
      simp only [Option.map_some'] at hne
      show (u.role == "admin") = false
      cases hrole : u.role == "admin"
      · rfl
      · exact absurd (congrArg some (eq_of_beq hrole)) hne
  · intro hne
    unfold verifyAgentGuard
    cases hf : findUserByEmail c1.email users with
    | none => rfl
    | some u =>
      rw [hf] at hne
      simp only [Option.map_some'] at hne
      show (u.role == "agent") = false
      cases hrole : u.role == "agent"
      · rfl
      · exact absurd (congrArg some (eq_of_beq hrole)) hne

/-- Witness for C8: with the store holding user `a@x` whose stored role is
`agent`, claims carrying token roles `admin` and `user` for that email get
the same decision, and the admin guard denies although the token says
`admin`. -/
theorem C8_guard_uses_stored_role_witness :
    verifyAdminGuard ⟨"a@x", "admin"⟩ [⟨1, "a@x", "agent"⟩] =
      verifyAdminGuard ⟨"a@x", "user"⟩ [⟨1, "a@x", "agent"⟩] ∧
    verifyAdminGuard ⟨"a@x", "admin"⟩ [⟨1, "a@x", "agent"⟩] = false :=
  ⟨(C8_guard_uses_stored_role [⟨1, "a@x", "agent"⟩] ⟨"a@x", "admin"⟩
      ⟨"a@x", "user"⟩ rfl).1.1,
   (C8_guard_uses_stored_role [⟨1, "a@x", "agent"⟩] ⟨"a@x", "admin"⟩
      ⟨"a@x", "user"⟩ rfl).2.1 (by decide)⟩

/-- C9 counterexample: for price 1/200 the charge amount sent to the
payment processor is `parseInt(0.5) = 0`, which differs from
price × 100 = 1/2, refuting the claim that the amount always equals the
price multiplied by 100. -/
theorem C9_payment_truncation_counterexample :
    createPaymentIntent (1/200) = ⟨0, "usd"⟩ ∧
    ((1 : ℚ)/200) * 100 ≠ ((0 : ℤ) : ℚ) := by
  constructor
  · unfold createPaymentIntent jsParseIntRat
    have h : ((1 : ℚ)/200) * 100 = 1/2 := by norm_num
    rw [h, if_pos (by norm_num : (0:ℚ) ≤ 1/2)]
    have hf : ⌊(1/2 : ℚ)⌋ = 0 := by
      rw [Int.floor_eq_zero_iff, Set.mem_Ico]
      constructor <;> norm_num
    rw [hf]
  · norm_num

/-- C9 amended: the currency is always the fixed string "usd", and the
charge amount is the truncation toward zero of price × 100, hence equal to
price × 100 exactly when that product is an integer `n`. -/
theorem C9_payment_amount_amended (p : ℚ) (n : ℤ) (h : p * 100 = (n : ℚ)) :
    (∀ q : ℚ, (createPaymentIntent q).currency = "usd") ∧
    createPaymentIntent p = ⟨n, "usd"⟩ := by
  refine ⟨fun q => rfl, ?_⟩
  unfold createPaymentIntent jsParseIntRat
  rw [h]
  by_cases hn : (0 : ℚ) ≤ (n : ℚ)
  · rw [if_pos hn, Int.floor_intCast]
  · rw [if_neg hn, Int.ceil_intCast]

/-- Witness for C9 amended: price 3 gives the charge ⟨300, "usd"⟩. -/
theorem C9_payment_amount_amended_witness :
    createPaymentIntent 3 = ⟨300, "usd"⟩ :=
  (C9_payment_amount_amended 3 300 (by norm_num)).2

end EstateHub
